import Mathlib

/-!
Shallow embedding of `generate_compose.py`: the scenario-to-compose generator
of the capsbench leaderboard repository.  The script parses a `scenario.toml`
document, resolves a docker image for the green agent and for every
participant (either an explicit `image` field or an `agentbeats_id` looked up
against the agentbeats.dev API), rejects duplicate participant names, and
renders three artifacts: `docker-compose.yml`, `a2a-scenario.toml` and an
optional `.env.example` listing unresolved secret placeholders.

Modelling conventions:
* TOML tables become association lists `List (String × String)`; the tables
  of the input document have pairwise distinct keys, which appears as an
  explicit hypothesis where it matters.
* The process-environment flag `GITHUB_ACTIONS` becomes the Boolean argument
  `restricted`.
* The external HTTP lookup (`fetch_agent_info`) becomes an oracle
  `lookup : String → Option AgentInfo`; `none` stands for any failing
  outcome (transport error, non-2xx status, malformed body), on which the
  script exits.
* `sys.exit(1)` paths become `Except.error`; since `main` writes its output
  files only after all resolution and validation succeeded, an `Except.error`
  result of `main` means that none of the three files is written.
* Each resolution function also returns the number of external lookup calls
  it performed, so that claims about "no external call" are statable.
-/

namespace GenCompose

/-- Successful response body of the agentbeats.dev lookup
(`fetch_agent_info`): it carries the deployable image under `docker_image`
and, optionally, a service-assigned identifier under `id`. -/
structure AgentInfo where
  docker_image : String
  id : Option String
deriving DecidableEq, Repr

/-- One agent table of `scenario.toml` (the `green_agent` table or one entry
of the `participants` array).  The source manipulates plain dicts; key
absence is modelled with `Option`/empty list.  `webhook_id` is absent in the
input document and is only set by `resolve_image` from a lookup response. -/
structure AgentSpec where
  name : Option String := none
  image : Option String := none
  agentbeats_id : Option String := none
  env : List (String × String) := []
  webhook_id : Option String := none
deriving DecidableEq, Repr

/-- Parsed `scenario.toml` document (`data` in `parse_scenario`).  The
`config` table is opaque pass-through; it is modelled as a flat
string-valued table, which is the only shape the claims ever exercise. -/
structure ScenarioConfig where
  green_agent : AgentSpec := {}
  participants : List AgentSpec := []
  config : List (String × String) := []
deriving DecidableEq, Repr

/-- Fatal error outcomes of the script (each is a printed diagnostic followed
by `sys.exit(1)` in the source).  `configError` carries the diagnostic text
and the display name of the offending entity; `duplicateNamesError` carries
the list of duplicated participant names that the source joins into its
diagnostic; `resolutionError` is any failing external lookup
(`fetch_agent_info` exits on HTTP error, bad JSON or transport failure) and
carries the identifier that was being resolved.  In the vocabulary of the
spec, `configError` and `duplicateNamesError` are the `ConfigError` cases and
`resolutionError` is the `ResolutionError` case. -/
inductive Err where
  | configError (msg : String) (entity : String)
  | duplicateNamesError (dups : List (Option String))
  | resolutionError (key : String)
deriving DecidableEq, Repr

/-- Test whether an error is a `ConfigError` in the vocabulary of the spec
(a structural or business-rule violation, as opposed to a failed external
lookup). -/
def Err.isConfigError : Err → Bool
  | .configError _ _ => true
  | .duplicateNamesError _ => true
  | .resolutionError _ => false

/-- Diagnostic text of the both-sources case of `resolve_image` (the
"ambiguous image source" error of the spec; the source prints
`{name} has both image and agentbeats_id - use one or the other`). -/
def hasBothMsg : String := "has both image and agentbeats_id - use one or the other"

/-- Diagnostic text of the restricted-environment rejection of an explicit
image (the source prints `{name} requires agentbeats_id for GitHub Actions`
when `GITHUB_ACTIONS` is set). -/
def githubActionsMsg : String := "requires agentbeats_id for GitHub Actions"

/-- Diagnostic text of the no-source case of `resolve_image` (the
"missing image source" error of the spec; the source prints
`{name} must have either image or agentbeats_id field`). -/
def missingSourceMsg : String := "must have either image or agentbeats_id field"

/-- Embedding of `resolve_image(agent, name)`.  The source mutates the agent
dict in place and calls `sys.exit(1)` on errors; here the updated agent is
returned in `Except`, together with the number of `fetch_agent_info` calls
performed (0 or 1).  Branch by branch:
* both `image` and `agentbeats_id` present: fatal config error, no lookup;
* only `image`: fatal config error when `GITHUB_ACTIONS` is set, otherwise
  the agent is kept unchanged (its `image` key is already the resolved one);
* only `agentbeats_id`: one lookup; on success `image` is overwritten with
  the `docker_image` of the response and, when the response carries an `id`
  key, `webhook_id` is set to it;
* neither: fatal config error. -/
def resolve_image (restricted : Bool) (lookup : String → Option AgentInfo)
    (agent : AgentSpec) (name : String) : Except Err AgentSpec × Nat :=
  let has_image := agent.image.isSome
  let has_id := agent.agentbeats_id.isSome
  if has_image && has_id then
    (.error (.configError hasBothMsg name), 0)
  else if has_image then
    if restricted then
      (.error (.configError githubActionsMsg name), 0)
    else
      (.ok agent, 0)
  else if has_id then
    match lookup (agent.agentbeats_id.getD "") with
    | none => (.error (.resolutionError (agent.agentbeats_id.getD "")), 1)
    | some info =>
        (.ok { agent with
                image := some info.docker_image,
                webhook_id := match info.id with
                  | some i => some i
                  | none => agent.webhook_id }, 1)
  else
    (.error (.configError missingSourceMsg name), 0)

/-- Display name used by `parse_scenario` when resolving a participant (the
source formats `participant {name}` around the single-quoted name, with
`unknown` when the `name` key is absent). -/
def participantDisplayName (p : AgentSpec) : String :=
  "participant " ++ p.name.getD "unknown"

/-- Sequential resolution of the participants list (the final loop of
`parse_scenario`), stopping at the first error exactly as `sys.exit(1)`
does; the second component counts external lookup calls actually made. -/
def resolveParticipants (restricted : Bool) (lookup : String → Option AgentInfo) :
    List AgentSpec → Except Err (List AgentSpec) × Nat
  | [] => (.ok [], 0)
  | p :: ps =>
    match resolve_image restricted lookup p (participantDisplayName p) with
    | (.error e, c) => (.error e, c)
    | (.ok p2, c) =>
      match resolveParticipants restricted lookup ps with
      | (.error e, c2) => (.error e, c + c2)
      | (.ok ps2, c2) => (.ok (p2 :: ps2), c + c2)

/-- Embedding of the duplicate computation of `parse_scenario`:
`[name for name in set(names) if names.count(name) > 1]`.  Python set
iteration order is arbitrary; `dedup` fixes one enumeration of the same
set of names. -/
def duplicateNames (names : List (Option String)) : List (Option String) :=
  names.dedup.filter (fun n => 1 < names.count n)

/-- Embedding of `parse_scenario` on an already-parsed document: resolve the
green agent, then reject duplicate participant names, then resolve every
participant in sequence order, returning the resolved document and the
total number of external lookup calls. -/
def parse_scenario (restricted : Bool) (lookup : String → Option AgentInfo)
    (data : ScenarioConfig) : Except Err ScenarioConfig × Nat :=
  match resolve_image restricted lookup data.green_agent "green_agent" with
  | (.error e, c) => (.error e, c)
  | (.ok green2, c) =>
    let names := data.participants.map (·.name)
    let dups := duplicateNames names
    if dups.isEmpty then
      match resolveParticipants restricted lookup data.participants with
      | (.error e, c2) => (.error e, c + c2)
      | (.ok ps, c2) =>
          (.ok { data with green_agent := green2, participants := ps }, c + c2)
    else
      (.error (.duplicateNamesError dups), c)

/-- Shared listening port of every agent service (`DEFAULT_PORT`). -/
def DEFAULT_PORT : Nat := 9009

/-- Baseline environment merged under every rendered environment block
(`DEFAULT_ENV_VARS`). -/
def DEFAULT_ENV_VARS : List (String × String) := [("PYTHONUNBUFFERED", "1")]

/-- Association-list embedding of the Python dict merge `{**d, **e}` used by
`format_env_vars`: the keys of `d` come first, each taking the value from
`e` when `e` also binds it, followed by the entries of `e` whose keys are
not bound in `d`, in their insertion order.  The lists stand for dicts, so
keys are pairwise distinct wherever this is applied. -/
def dictMerge (d e : List (String × String)) : List (String × String) :=
  d.map (fun kv => (kv.1, (e.lookup kv.1).getD kv.2))
    ++ e.filter (fun kv => (d.lookup kv.1).isNone)

/-- Rendered lines of one environment block: `      - KEY=VALUE` per entry of
the merged dict, in merged-dict order (the list comprehension of
`format_env_vars`). -/
def envLines (env : List (String × String)) : List String :=
  (dictMerge DEFAULT_ENV_VARS env).map (fun kv => "      - " ++ kv.1 ++ "=" ++ kv.2)

/-- Embedding of `format_env_vars`: a newline followed by the joined
environment lines. -/
def format_env_vars (env : List (String × String)) : String :=
  "\n" ++ String.intercalate "\n" (envLines env)

/-- Rendered lines of one `depends_on` block: for every service in the list,
a `      {service}:` line followed by a `        condition: service_healthy`
line (the loop body of `format_depends_on`). -/
def dependsLines (services : List String) : List String :=
  services.flatMap (fun s => ["      " ++ s ++ ":", "        condition: service_healthy"])

/-- Embedding of `format_depends_on`: a newline followed by the joined
dependency lines. -/
def format_depends_on (services : List String) : String :=
  "\n" ++ String.intercalate "\n" (dependsLines services)
/-- Base64 capsule `PATCH_B64` of the source: the literal long-polling patch
script `SERVER_PATCH_SOURCE` encoded with `base64.b64encode` over UTF-8.
The generator splices this constant verbatim into the entrypoint line of the
green-agent service and never inspects it. -/
def PATCH_B64 : String :=
  "CmltcG9ydCBzeXMKaW1wb3J0IG9zCmltcG9ydCB0aW1lCmltcG9ydCBnbG9iCmltcG9ydCByZQoKcHJpbnQoIvCflKcgW1BBVENIXSBJbmljaW"
    ++ "FuZG8gaW55ZWNjaW9uIGRlIExvbmcgUG9sbGluZy4uLiIsIGZsdXNoPVRydWUpCgp0YXJnZXRfZmlsZSA9ICdzcmMvZ3JlZW5fYWdlbnQucHkn"
    ++ "CmlmIG5vdCBvcy5wYXRoLmV4aXN0cyh0YXJnZXRfZmlsZSk6CiAgICB0YXJnZXRfZmlsZSA9ICdncmVlbl9hZ2VudC5weScKCndpdGggb3Blbi"
    ++ "h0YXJnZXRfZmlsZSwgJ3InKSBhcyBmOgogICAgY29udGVudCA9IGYucmVhZCgpCgojIDEuIEFzZWd1cmFyIGltcG9ydHMKaWYgImltcG9ydCB0"
    ++ "aW1lIiBub3QgaW4gY29udGVudDoKICAgIGNvbnRlbnQgPSAiaW1wb3J0IHRpbWUsIGdsb2IsIG9zXG4iICsgY29udGVudAppZiAiZnJvbSBmbG"
    ++ "FzayBpbXBvcnQgRmxhc2siIGluIGNvbnRlbnQgYW5kICJqc29uaWZ5IiBub3QgaW4gY29udGVudDoKICAgIGNvbnRlbnQgPSBjb250ZW50LnJl"
    ++ "cGxhY2UoImZyb20gZmxhc2sgaW1wb3J0IEZsYXNrIiwgImZyb20gZmxhc2sgaW1wb3J0IEZsYXNrLCBqc29uaWZ5IikKCiMgMi4gRGVzYWN0aX"
    ++ "ZhciBsYSBydXRhIGFudGlndWEgZHVtbXlfcnBjIChjdWFscXVpZXJhIHF1ZSBzZWEgc3UgZm9ybWEpCiMgQ29tZW50YW1vcyBlbCBkZWNvcmFk"
    ++ "b3IgcGFyYSBxdWUgRmxhc2sgaWdub3JlIGxhIGZ1bmNpb24gb3JpZ2luYWwKY29udGVudCA9IGNvbnRlbnQucmVwbGFjZSgiQGFwcC5yb3V0ZS"
    ++ "gnLycsIG1ldGhvZHM9WydQT1NUJywgJ0dFVCddKSIsICIjIERJU0FCTEVEX09MRF9ST1VURSIpCmNvbnRlbnQgPSBjb250ZW50LnJlcGxhY2Uo"
    ++ "IkBhcHAucm91dGUoXCIvXCIsIG1ldGhvZHM9WydQT1NUJywgJ0dFVCddKSIsICIjIERJU0FCTEVEX09MRF9ST1VURSIpCgojIDMuIElueWVjdG"
    ++ "FyIGxhIE5VRVZBIGxvZ2ljYSBkZSBCbG9xdWVvCiMgRXN0YSBmdW5jaW9uIGludGVyY2VwdGEgbGEgcGV0aWNpb24geSBOTyByZXNwb25kZSBo"
    ++ "YXN0YSBxdWUgbGEgcGFydGlkYSB0ZXJtaW5hLgpuZXdfbG9naWMgPSByJycnCkBhcHAucm91dGUoJy8nLCBtZXRob2RzPVsnUE9TVCcsICdHRV"
    ++ "QnXSkKZGVmIGJsb2NraW5nX3JwYygpOgogICAgcHJpbnQoIvCflJIgW0JMT1FVRU9dIENsaWVudGUgY29uZWN0YWRvLiBFc3BlcmFuZG8gZmlu"
    ++ "IGRlIHBhcnRpZGEuLi4iLCBmbHVzaD1UcnVlKQogICAgc3RhcnRfdGltZSA9IHRpbWUudGltZSgpCiAgICAKICAgIHdoaWxlIFRydWU6CiAgIC"
    ++ "AgICAgIyBCdXNjYXIgYXJjaGl2b3MgZGUgcmVzdWx0YWRvcyByZWNpZW50ZXMgKC5qc29ubCBvIC5qc29uKQogICAgICAgICMgQnVzY2Ftb3Mg"
    ++ "ZW4gdG9kYXMgbGFzIGNhcnBldGFzIHByb2JhYmxlcwogICAgICAgIHBhdHRlcm5zID0gWydyZXN1bHRzLyouanNvbicsICdzcmMvcmVzdWx0cy"
    ++ "8qLmpzb24nLCAncmVwbGF5cy8qLmpzb25sJywgJ3NyYy9yZXBsYXlzLyouanNvbmwnXQogICAgICAgIGZpbGVzID0gW10KICAgICAgICBmb3Ig"
    ++ "cCBpbiBwYXR0ZXJuczoKICAgICAgICAgICAgZmlsZXMuZXh0ZW5kKGdsb2IuZ2xvYihwKSkKICAgICAgICAgICAgCiAgICAgICAgaWYgZmlsZX"
    ++ "M6CiAgICAgICAgICAgICMgT3JkZW5hciBwb3IgZmVjaGEKICAgICAgICAgICAgZmlsZXMuc29ydChrZXk9b3MucGF0aC5nZXRtdGltZSkKICAg"
    ++ "ICAgICAgICAgbGFzdF9maWxlID0gZmlsZXNbLTFdCiAgICAgICAgICAgIAogICAgICAgICAgICAjIFNpIGVsIGFyY2hpdm8gdGllbmUgbWVub3"
    ++ "MgZGUgMTAgbWluICg2MDBzKSwgZXMgbGEgcGFydGlkYSBhY3R1YWwKICAgICAgICAgICAgaWYgKHRpbWUudGltZSgpIC0gb3MucGF0aC5nZXRt"
    ++ "dGltZShsYXN0X2ZpbGUpKSA8IDYwMDoKICAgICAgICAgICAgICAgIGZpbGVuYW1lID0gb3MucGF0aC5iYXNlbmFtZShsYXN0X2ZpbGUpCiAgIC"
    ++ "AgICAgICAgICAgICBwcmludChmIuKchSBbRklOXSBEZXRlY3RhZG86IHtmaWxlbmFtZX0uIExpYmVyYW5kbyBjbGllbnRlLiIsIGZsdXNoPVRy"
    ++ "dWUpCiAgICAgICAgICAgICAgICAKICAgICAgICAgICAgICAgICMgRGV2b2x2ZXIgSlNPTiBGaW5hbCBjb24gZXN0cnVjdHVyYSBwbGFuYSAoUH"
    ++ "lkYW50aWMgRnJpZW5kbHkpCiAgICAgICAgICAgICAgICByZXR1cm4ganNvbmlmeSh7CiAgICAgICAgICAgICAgICAgICAgImpzb25ycGMiOiAi"
    ++ "Mi4wIiwgImlkIjogMSwKICAgICAgICAgICAgICAgICAgICAicmVzdWx0IjogewogICAgICAgICAgICAgICAgICAgICAgICAiY29udGV4dElkIj"
    ++ "ogImN0eCIsICJ0YXNrSWQiOiAidGFzayIsICJpZCI6ICJ0YXNrIiwKICAgICAgICAgICAgICAgICAgICAgICAgInN0YXR1cyI6IHsic3RhdGUi"
    ++ "OiAiY29tcGxldGVkIn0sICJmaW5hbCI6IFRydWUsCiAgICAgICAgICAgICAgICAgICAgICAgICJtZXNzYWdlSWQiOiAibXNnLWRvbmUiLCAicm"
    ++ "9sZSI6ICJhc3Npc3RhbnQiLAogICAgICAgICAgICAgICAgICAgICAgICAicGFydHMiOiBbeyJ0ZXh0IjogIkdhbWUgRmluaXNoZWQiLCAibWlt"
    ++ "ZVR5cGUiOiAidGV4dC9wbGFpbiJ9XQogICAgICAgICAgICAgICAgICAgIH0KICAgICAgICAgICAgICAgIH0pCiAgICAgICAgCiAgICAgICAgIy"
    ++ "BUaW1lb3V0IGRlIHNlZ3VyaWRhZCAoMjAgbWluKSBwYXJhIG5vIGNvbGdhciBlbCBDSSBldGVybmFtZW50ZQogICAgICAgIGlmIHRpbWUudGlt"
    ++ "ZSgpIC0gc3RhcnRfdGltZSA+IDEyMDA6CiAgICAgICAgICAgIHJldHVybiBqc29uaWZ5KHsiZXJyb3IiOiAidGltZW91dF93YWl0aW5nX3Jlc3"
    ++ "VsdHMifSkKICAgICAgICAgICAgCiAgICAgICAgdGltZS5zbGVlcCg1KQonJycKCiMgNC4gSW5zZXJ0YXIgbGEgbG9naWNhIGFudGVzIGRlbCBi"
    ++ "bG9xdWUgTWFpbgppZiAiaWYgX19uYW1lX18iIGluIGNvbnRlbnQ6CiAgICBwYXJ0cyA9IGNvbnRlbnQuc3BsaXQoImlmIF9fbmFtZV9fIikKIC"
    ++ "AgIG5ld19jb250ZW50ID0gcGFydHNbMF0gKyAiXG4iICsgbmV3X2xvZ2ljICsgIlxuXG5pZiBfX25hbWVfXyIgKyBwYXJ0c1sxXQplbHNlOgog"
    ++ "ICAgbmV3X2NvbnRlbnQgPSBjb250ZW50ICsgIlxuIiArIG5ld19sb2dpYwoKIyA1LiBHdWFyZGFyIHkgRWplY3V0YXIKd2l0aCBvcGVuKHRhcm"
    ++ "dldF9maWxlLCAndycpIGFzIGY6CiAgICBmLndyaXRlKG5ld19jb250ZW50KQoKcHJpbnQoIuKchSBbUEFUQ0hdIFNlcnZpZG9yIG1vZGlmaWNh"
    ++ "ZG8uIEFycmFuY2FuZG8uLi4iLCBmbHVzaD1UcnVlKQpzeXMuc3Rkb3V0LmZsdXNoKCkKCiMgUGFzYW1vcyBsb3MgYXJndW1lbnRvcyBvcmlnaW"
    ++ "5hbGVzIGFsIHNjcmlwdCBtb2RpZmljYWRvCm9zLmV4ZWN2cCgicHl0aG9uIiwgWyJweXRob24iLCAiLXUiLCB0YXJnZXRfZmlsZV0gKyBzeXMu"
    ++ "YXJndlsxOl0pCg=="

/-- Leading chunk of one participant service block of `PARTICIPANT_TEMPLATE`,
up to (excluding) its `depends_on:` key: header, image, platform, container
name, startup command with the self-referential card URL, and environment
block. -/
def participantServicePre (p : AgentSpec) : String :=
  "  " ++ p.name.getD "" ++ ":\n    image: " ++ p.image.getD ""
    ++ "\n    platform: linux/amd64\n    container_name: " ++ p.name.getD ""
    ++ "\n    command: [\"--host\", \"0.0.0.0\", \"--port\", \"" ++ toString DEFAULT_PORT
    ++ "\", \"--card-url\", \"http://" ++ p.name.getD "" ++ ":" ++ toString DEFAULT_PORT
    ++ "\"]\n    environment:" ++ format_env_vars p.env ++ "\n    "

/-- Dependency chunk of one participant service block: every participant
waits for the green-agent service to become healthy. -/
def participantDependsChunk : String :=
  "depends_on:\n      green-agent:\n        condition: service_healthy\n"

/-- Trailing chunk of one participant service block: the always-passing
healthcheck and the shared network attachment. -/
def participantServicePost : String :=
  "    healthcheck:\n      test: [\"CMD-SHELL\", \"exit 0\"]\n      interval: 10s\n      timeout: 5s\n      retries: 5\n      start_period: 5s\n    networks:\n      - agent-network\n"

/-- Embedding of `PARTICIPANT_TEMPLATE.format(...)`: one rendered service
block per participant.  The source indexes `p["name"]` and `p["image"]`
(presupposing both keys); absent keys render as the empty string here. -/
def participantService (p : AgentSpec) : String :=
  participantServicePre p ++ participantDependsChunk ++ participantServicePost

/-- Embedding of `COMPOSE_TEMPLATE.format(...)`: the full compose document
with the seven template parameters of the source spliced in. -/
def COMPOSE_TEMPLATE (green_image green_port green_env green_depends
    participant_services client_depends patch_b64 : String) : String :=
  "# Auto-generated from scenario.toml\n\nservices:\n  green-agent:\n    image: "
    ++ green_image
    ++ "\n    platform: linux/amd64\n    container_name: green-agent\n    \n    # FIX INDESTRUCTIBLE: Decodifica el parche y lo ejecuta.\n    # No hay scripts multilinea en el YAML, por lo que no puede haber error de sintaxis.\n    entrypoint: \n      - /bin/sh\n      - -c\n      - \"echo "
    ++ patch_b64
    ++ " | base64 -d > /tmp/runner.py && python /tmp/runner.py --host 0.0.0.0 --port "
    ++ green_port
    ++ " --card-url http://green-agent:"
    ++ green_port
    ++ "\"\n\n    environment:"
    ++ green_env
    ++ "\n    healthcheck:\n      test: [\"CMD\", \"curl\", \"-f\", \"http://localhost:"
    ++ green_port
    ++ "/status\"]\n      interval: 5s\n      timeout: 3s\n      retries: 10\n      start_period: 30s\n    "
    ++ "depends_on:"
    ++ green_depends
    ++ "\n    networks:\n      - agent-network\n\n"
    ++ participant_services
    ++ "\n  agentbeats-client:\n    image: ghcr.io/agentbeats/agentbeats-client:v1.0.0\n    platform: linux/amd64\n    container_name: agentbeats-client\n    volumes:\n      - ./a2a-scenario.toml:/app/scenario.toml\n      - ./output:/app/output\n    command: [\"scenario.toml\", \"output/results.json\"]\n    "
    ++ "depends_on:"
    ++ client_depends
    ++ "\n    networks:\n      - agent-network\n\nnetworks:\n  agent-network:\n    driver: bridge\n"

/-- Service names whose healthy state the collection client waits for:
the green agent followed by every participant name, in sequence order
(`all_services` in `generate_docker_compose`). -/
def allServiceNames (scenario : ScenarioConfig) : List String :=
  "green-agent" :: scenario.participants.map (fun p => p.name.getD "")

/-- Embedding of `generate_docker_compose`: the compose template applied to
the green image, the shared port, the green environment block, a literal
empty dependency list for the green agent, the joined participant service
blocks, the healthy-state dependency block of the collection client over
all services, and the patch capsule. -/
def generate_docker_compose (scenario : ScenarioConfig) : String :=
  COMPOSE_TEMPLATE (scenario.green_agent.image.getD "") (toString DEFAULT_PORT)
    (format_env_vars scenario.green_agent.env) " []"
    (String.intercalate "\n" (scenario.participants.map participantService))
    (format_depends_on (allServiceNames scenario)) PATCH_B64

/-- External-identifier lines of one participant block of the transcoded
scenario: the source appends `agentbeats_id = "{webhook_id}"` when a
`webhook_id` was captured from the lookup response, otherwise
`agentbeats_id = "{agentbeats_id}"` when the input carried an
`agentbeats_id`, otherwise nothing. -/
def participantIdLines (p : AgentSpec) : List String :=
  match p.webhook_id with
  | some w => ["agentbeats_id = \"" ++ w ++ "\""]
  | none =>
    match p.agentbeats_id with
    | some a => ["agentbeats_id = \"" ++ a ++ "\""]
    | none => []

/-- One `[[participants]]` block of the transcoded scenario: header, role,
derived endpoint, optional external-identifier line, with a trailing
newline (the loop body of `generate_a2a_scenario`). -/
def participantBlock (p : AgentSpec) : String :=
  String.intercalate "\n"
    (["[[participants]]",
      "role = \"" ++ p.name.getD "" ++ "\"",
      "endpoint = \"http://" ++ p.name.getD "" ++ ":" ++ toString DEFAULT_PORT ++ "\""]
      ++ participantIdLines p) ++ "\n"

/-- Serialization of the opaque `config` table, as
`tomli_w.dumps({"config": config_section})` renders a flat string-valued
table: a `[config]` header followed by one `key = "value"` line per entry. -/
def tomlDumpsConfig (config : List (String × String)) : String :=
  "[config]\n" ++ String.join (config.map (fun kv => kv.1 ++ " = \"" ++ kv.2 ++ "\"\n"))

/-- Embedding of `generate_a2a_scenario`: the green-agent endpoint header,
the participant blocks joined in sequence order, and the serialized config
section, assembled exactly as `A2A_SCENARIO_TEMPLATE.format(...)` does. -/
def generate_a2a_scenario (scenario : ScenarioConfig) : String :=
  "[green_agent]\nendpoint = \"http://green-agent:" ++ toString DEFAULT_PORT ++ "\"\n\n"
    ++ String.intercalate "\n" (scenario.participants.map participantBlock)
    ++ "\n" ++ tomlDumpsConfig scenario.config

/-- Fueled scanner for the placeholder regex of `generate_env_file`.  The
pattern is a dollar sign, an opening brace, one or more characters other
than a closing brace, and a closing brace; matches are found left to right
and do not overlap, and on a failed match the scan advances one character,
exactly as `re.findall` behaves on this pattern.  The fuel argument only
makes the recursion structural (every recursive call strictly shrinks the
character list, so any fuel at least the list length computes the scan to
completion). -/
def findPlaceholdersAux : Nat → List Char → List String
  | 0, _ => []
  | _ + 1, [] => []
  | fuel + 1, '$' :: '\x7b' :: rest =>
    let content := rest.takeWhile (fun ch => ch ≠ '\x7d')
    match rest.dropWhile (fun ch => ch ≠ '\x7d') with
    | '\x7d' :: tail =>
      if content.isEmpty then findPlaceholdersAux fuel ('\x7b' :: rest)
      else String.mk content :: findPlaceholdersAux fuel tail
    | _ => findPlaceholdersAux fuel ('\x7b' :: rest)
  | fuel + 1, _ :: cs => findPlaceholdersAux fuel cs

/-- Scanner for the placeholder regex, with enough fuel to run to
completion. -/
def findPlaceholders (cs : List Char) : List String :=
  findPlaceholdersAux cs.length cs

/-- Placeholder names occurring in one string value
(`env_var_pattern.findall(str(value))`). -/
def findPlaceholdersStr (v : String) : List String :=
  findPlaceholders v.data

/-- Environment values scanned by `generate_env_file`: the values of the
green-agent env table followed by the values of every participant env
table. -/
def envValues (scenario : ScenarioConfig) : List String :=
  scenario.green_agent.env.map Prod.snd
    ++ scenario.participants.flatMap (fun p => p.env.map Prod.snd)

/-- Distinct placeholder names collected by `generate_env_file` (its
`secrets` set; Python sets carry no order, so the set is enumerated here in
some definite order and sorted before rendering, as the source does). -/
def collectedSecrets (scenario : ScenarioConfig) : List String :=
  ((envValues scenario).flatMap findPlaceholdersStr).dedup

/-- Lexicographic code-point comparison of character lists, the order by
which Python `sorted` arranges strings. -/
def charListLe : List Char → List Char → Bool
  | [], _ => true
  | _ :: _, [] => false
  | a :: as, b :: bs =>
    if a < b then true
    else if b < a then false
    else charListLe as bs

/-- Lexicographic code-point comparison of strings (the comparison behind
Python `sorted` on strings). -/
def strLeB (a b : String) : Bool :=
  charListLe a.data b.data

/-- Embedding of `generate_env_file`: the empty string when no placeholder
occurs anywhere, otherwise one `NAME=` line per distinct placeholder name in
ascending lexicographic order (`sorted(secrets)` in the source), joined by
newlines with a trailing newline. -/
def generate_env_file (scenario : ScenarioConfig) : String :=
  let secrets := collectedSecrets scenario
  if secrets.isEmpty then ""
  else
    String.intercalate "\n"
      ((List.insertionSort (fun a b => strLeB a b) secrets).map (fun n => n ++ "=")) ++ "\n"

/-- Contents written by a successful run of `main`: the compose manifest,
the transcoded scenario, and the optional secrets template (`none` when
`generate_env_file` returned the empty string, in which case the source
writes no `.env.example` file at all). -/
structure Outputs where
  compose : String
  a2a_scenario : String
  env_file : Option String
deriving DecidableEq, Repr

/-- Embedding of `main` after argument parsing: parse and resolve the
scenario (any fatal error aborts the run before any file is written), then
render the three artifacts. -/
def main (restricted : Bool) (lookup : String → Option AgentInfo)
    (data : ScenarioConfig) : Except Err Outputs :=
  match (parse_scenario restricted lookup data).1 with
  | .error e => .error e
  | .ok scenario =>
    let env_content := generate_env_file scenario
    .ok { compose := generate_docker_compose scenario,
          a2a_scenario := generate_a2a_scenario scenario,
          env_file := if env_content = "" then none else some env_content }

/-!  Helper lemmas about image resolution, shared by several claims. -/

/-- With an explicit image, no external identifier, and the restricted flag
unset, resolution keeps the agent unchanged and performs no lookup. -/
theorem resolve_image_explicit (lookup : String → Option AgentInfo)
    (agent : AgentSpec) (name : String) (himg : agent.image.isSome)
    (hid : agent.agentbeats_id = none) :
    resolve_image false lookup agent name = (.ok agent, 0) := by
  simp [resolve_image, himg, hid]

/-- A list of agents that all carry explicit images and no external
identifiers resolves to itself with zero lookup calls. -/
theorem resolveParticipants_explicit (lookup : String → Option AgentInfo)
    (ps : List AgentSpec)
    (hp : ∀ p ∈ ps, p.image.isSome ∧ p.agentbeats_id = none) :
    resolveParticipants false lookup ps = (.ok ps, 0) := by
  induction ps with
  | nil => rfl
  | cons p ps ih =>
    have h := hp p (List.mem_cons_self p ps)
    simp [resolveParticipants, resolve_image_explicit lookup p _ h.1 h.2,
      ih (fun q hq => hp q (List.mem_cons_of_mem p hq))]

/-- A list without duplicates counts every element at most once. -/
theorem count_le_one_of_nodup {α : Type} [BEq α] [LawfulBEq α] {l : List α}
    (h : l.Nodup) (n : α) : l.count n ≤ 1 := by
  induction l with
  | nil => simp
  | cons a l ih =>
    rw [List.count_cons]
    rcases List.nodup_cons.mp h with ⟨ha, hl⟩
    by_cases hna : n = a
    · subst hna
      have h0 : l.count n = 0 := List.count_eq_zero.mpr ha
      simp [h0]
    · have hb : (a == n) = false := beq_eq_false_iff_ne.mpr (fun he => hna he.symm)
      simp [hb, ih hl]

/-- Pairwise distinct names produce an empty duplicate list. -/
theorem duplicateNames_eq_nil_of_nodup {names : List (Option String)}
    (h : names.Nodup) : duplicateNames names = [] := by
  unfold duplicateNames
  rw [List.filter_eq_nil_iff]
  intro n _
  simp only [decide_eq_true_eq]
  by_cases hm : n ∈ names
  · have h0 : 0 < names.count n := List.count_pos_iff.mpr hm
    have h1 := count_le_one_of_nodup h n
    omega
  · have h0 : names.count n = 0 := List.count_eq_zero.mpr hm
    omega

/-- Any successfully resolved agent has its image field set. -/
theorem resolve_image_ok_isSome {restricted : Bool}
    {lookup : String → Option AgentInfo} {agent : AgentSpec} {name : String}
    {a2 : AgentSpec} {c : Nat}
    (h : resolve_image restricted lookup agent name = (.ok a2, c)) :
    a2.image.isSome := by
  rcases himg : agent.image with _ | i <;> rcases hid : agent.agentbeats_id with _ | k
  · simp [resolve_image, himg, hid] at h
  · rcases hlk : lookup k with _ | info <;>
      simp [resolve_image, himg, hid, hlk] at h
    rcases h with ⟨h1, h2⟩
    rw [← h1]
    simp
  · cases restricted <;> simp [resolve_image, himg, hid] at h
    rcases h with ⟨h1, h2⟩
    rw [← h1, himg]
    simp
  · simp [resolve_image, himg, hid] at h

/-- Every agent of a successfully resolved participant list has its image
field set. -/
theorem resolveParticipants_ok_isSome {restricted : Bool}
    {lookup : String → Option AgentInfo} {ps ps2 : List AgentSpec} {c : Nat}
    (h : resolveParticipants restricted lookup ps = (.ok ps2, c)) :
    ∀ p ∈ ps2, p.image.isSome := by
  induction ps generalizing ps2 c with
  | nil =>
    simp [resolveParticipants] at h
    rcases h with ⟨h1, -⟩
    subst h1
    intro p hp
    simp at hp
  | cons p ps ih =>
    rw [resolveParticipants] at h
    rcases hr : resolve_image restricted lookup p (participantDisplayName p) with ⟨r, c1⟩
    rw [hr] at h
    cases r with
    | error e => simp at h
    | ok p2 =>
      rcases hrs : resolveParticipants restricted lookup ps with ⟨rs, c2⟩
      rw [hrs] at h
      cases rs with
      | error e => simp at h
      | ok ps3 =>
        simp at h
        rcases h with ⟨h1, -⟩
        subst h1
        intro q hq
        rcases List.mem_cons.mp hq with hq | hq
        · rw [hq]; exact resolve_image_ok_isSome hr
        · exact ih hrs q hq

/-- Claim C1: for every agent spec and display name, resolution fails with
the ambiguous-image-source `ConfigError` naming the entity when both `image`
and `agentbeats_id` are set — and in that case zero external lookup calls
are made — and fails with the missing-image-source `ConfigError` naming the
entity when neither is set. -/
theorem claim_C1_ambiguous_and_missing_source (restricted : Bool)
    (lookup : String → Option AgentInfo) (agent : AgentSpec) (name : String) :
    (agent.image.isSome → agent.agentbeats_id.isSome →
      resolve_image restricted lookup agent name =
        (.error (.configError hasBothMsg name), 0))
    ∧ (agent.image = none → agent.agentbeats_id = none →
      resolve_image restricted lookup agent name =
        (.error (.configError missingSourceMsg name), 0)) := by
  constructor
  · intro h1 h2
    simp [resolve_image, h1, h2]
  · intro h1 h2
    simp [resolve_image, h1, h2]

/-- Concrete instantiation of claim C1: an agent with both sources set fails
with the ambiguous-source error and zero lookups, and an agent with neither
fails with the missing-source error. -/
theorem claim_C1_witness :
    resolve_image false (fun _ => none)
        { image := some "img", agentbeats_id := some "abc" } "green_agent"
      = (.error (.configError hasBothMsg "green_agent"), 0)
    ∧ resolve_image false (fun _ => none) {} "participant x"
      = (.error (.configError missingSourceMsg "participant x"), 0) :=
  ⟨(claim_C1_ambiguous_and_missing_source false (fun _ => none)
      { image := some "img", agentbeats_id := some "abc" } "green_agent").1 rfl rfl,
   (claim_C1_ambiguous_and_missing_source false (fun _ => none)
      {} "participant x").2 rfl rfl⟩

/-- Lookup oracle for the C4 counterexample: the service answers the key
`abc` with a response whose service-assigned `id` EQUALS the input key. -/
def c4Lookup : String → Option AgentInfo :=
  fun key => if key = "abc" then some { docker_image := "img", id := some "abc" } else none

/-- Claim C4 counterexample: the claim says the service-assigned identifier
is stored as `resolvedExternalId` only when it is distinct from the input
`agentbeats_id` key.  Here the response id `abc` equals the input key `abc`,
yet `resolve_image` stores `webhook_id = some "abc"` anyway — the source
performs no distinctness check. -/
theorem claim_C4_counterexample :
    c4Lookup "abc" = some { docker_image := "img", id := some "abc" }
    ∧ (resolve_image false c4Lookup { agentbeats_id := some "abc" } "green_agent").1
        = .ok { name := none, image := some "img", agentbeats_id := some "abc",
                env := [], webhook_id := some "abc" } :=
  ⟨rfl, rfl⟩

/-- Claim C4 (amended): for every agent resolved via `agentbeats_id` with a
successful lookup response, the resolved agent stores the docker image of
the response as its image, and stores the service-assigned identifier of
the response as `webhook_id` whenever the response carries one — regardless
of whether it differs from the input key; when the response carries no
identifier, `webhook_id` is left unchanged. -/
theorem claim_C4_amended (restricted : Bool) (lookup : String → Option AgentInfo)
    (agent : AgentSpec) (name : String) (key : String) (info : AgentInfo)
    (himg : agent.image = none) (hid : agent.agentbeats_id = some key)
    (hlk : lookup key = some info) :
    ∃ resolved, resolve_image restricted lookup agent name = (.ok resolved, 1)
      ∧ resolved.image = some info.docker_image
      ∧ (∀ i, info.id = some i → resolved.webhook_id = some i)
      ∧ (info.id = none → resolved.webhook_id = agent.webhook_id) := by
  refine ⟨{ agent with
            image := some info.docker_image,
            webhook_id := match info.id with
              | some i => some i
              | none => agent.webhook_id }, ?_, rfl, ?_, ?_⟩
  · simp [resolve_image, himg, hid, hlk]
  · intro i hi
    simp [hi]
  · intro hi
    simp [hi]

/-- Concrete instantiation of the amended claim C4 on the counterexample
oracle. -/
theorem claim_C4_witness :
    ∃ resolved,
      resolve_image false c4Lookup { agentbeats_id := some "abc" } "green_agent"
        = (.ok resolved, 1)
      ∧ resolved.image = some "img" := by
  obtain ⟨r, h1, h2, -, -⟩ :=
    claim_C4_amended false c4Lookup { agentbeats_id := some "abc" } "green_agent"
      "abc" { docker_image := "img", id := some "abc" } rfl rfl rfl
  exact ⟨r, h1, h2⟩

/-- Claim C8: for every configuration in which the green agent and all
participants carry an explicit image and no external identifier, with
pairwise distinct participant names and the restricted flag unset,
resolution performs zero external lookup calls and leaves every image
exactly as given. -/
theorem claim_C8_explicit_images_no_lookup (lookup : String → Option AgentInfo)
    (data : ScenarioConfig)
    (hg : data.green_agent.image.isSome)
    (hgid : data.green_agent.agentbeats_id = none)
    (hp : ∀ p ∈ data.participants, p.image.isSome ∧ p.agentbeats_id = none)
    (hnd : (data.participants.map (fun p => p.name)).Nodup) :
    ∃ resolved, parse_scenario false lookup data = (.ok resolved, 0)
      ∧ resolved.green_agent.image = data.green_agent.image
      ∧ resolved.participants.map (fun p => p.image)
          = data.participants.map (fun p => p.image) := by
  refine ⟨data, ?_, rfl, rfl⟩
  unfold parse_scenario
  rw [resolve_image_explicit lookup _ _ hg hgid]
  simp only [duplicateNames_eq_nil_of_nodup hnd, List.isEmpty_nil, if_true,
    resolveParticipants_explicit lookup _ hp]

/-- Concrete instantiation of claim C8: a two-participant configuration with
only explicit images resolves to itself with zero lookups. -/
theorem claim_C8_witness :
    ∃ resolved,
      parse_scenario false (fun _ => none)
        { green_agent := { image := some "img:green" },
          participants := [{ name := some "p1", image := some "img:p1" },
                           { name := some "p2", image := some "img:p2" }] }
        = (.ok resolved, 0)
      ∧ resolved.green_agent.image = some "img:green" := by
  obtain ⟨r, h1, h2, -⟩ :=
    claim_C8_explicit_images_no_lookup (fun _ => none)
      { green_agent := { image := some "img:green" },
        participants := [{ name := some "p1", image := some "img:p1" },
                         { name := some "p2", image := some "img:p2" }] }
      rfl rfl (by decide) (by decide)
  exact ⟨r, h1, by rw [h2]⟩

/-- Configuration for the C10 counterexample: the green agent carries the
explicit image `""` — the empty string is a present TOML value, so
resolution accepts it. -/
def c10Data : ScenarioConfig := { green_agent := { image := some "" } }

/-- Claim C10 counterexample: resolution completes without a fatal error on
`c10Data`, yet the resolved image of the green agent is the empty string,
refuting the claimed non-emptiness invariant. -/
theorem claim_C10_counterexample :
    parse_scenario false (fun _ => none) c10Data = (.ok c10Data, 0)
    ∧ c10Data.green_agent.image = some ""
    ∧ ("" : String).length = 0 :=
  ⟨rfl, rfl, rfl⟩

/-- Claim C10 (amended): after a successful resolution every agent spec of
the model — the green agent and all participants — has a resolved image
value set (the `image` field is present; it can be the empty string when the
configured image or looked-up image is empty, so non-emptiness of the string
is not guaranteed). -/
theorem claim_C10_amended (restricted : Bool) (lookup : String → Option AgentInfo)
    (data resolved : ScenarioConfig) (calls : Nat)
    (h : parse_scenario restricted lookup data = (.ok resolved, calls)) :
    resolved.green_agent.image.isSome
    ∧ ∀ p ∈ resolved.participants, p.image.isSome := by
  unfold parse_scenario at h
  rcases hg : resolve_image restricted lookup data.green_agent "green_agent" with ⟨r, c⟩
  rw [hg] at h
  cases r with
  | error e => simp at h
  | ok g2 =>
    simp only at h
    split at h
    · rcases hps : resolveParticipants restricted lookup data.participants with ⟨rs, c2⟩
      rw [hps] at h
      cases rs with
      | error e => simp at h
      | ok ps2 =>
        simp at h
        rcases h with ⟨h1, -⟩
        subst h1
        exact ⟨resolve_image_ok_isSome hg, resolveParticipants_ok_isSome hps⟩
    · simp at h

/-- Concrete instantiation of the amended claim C10. -/
theorem claim_C10_witness :
    ∃ resolved calls,
      parse_scenario false (fun _ => none)
          { green_agent := { image := some "img:g" } } = (.ok resolved, calls)
      ∧ resolved.green_agent.image.isSome := by
  refine ⟨{ green_agent := { image := some "img:g" } }, 0, rfl, ?_⟩
  exact (claim_C10_amended false (fun _ => none)
    { green_agent := { image := some "img:g" } }
    { green_agent := { image := some "img:g" } } 0 rfl).1

/-- Under the restricted flag, an agent carrying an explicit image always
fails its own resolution with a `ConfigError` naming it (the ambiguous-source
error when it also carries an external identifier, the
restricted-environment error otherwise), with zero lookups. -/
theorem resolve_image_restricted_of_image (lookup : String → Option AgentInfo)
    {agent : AgentSpec} (name : String) (himg : agent.image.isSome) :
    ∃ msg, resolve_image true lookup agent name
      = (.error (.configError msg name), 0) := by
  rcases hid : agent.agentbeats_id with _ | k
  · exact ⟨githubActionsMsg, by simp [resolve_image, himg, hid]⟩
  · exact ⟨hasBothMsg, by simp [resolve_image, himg, hid]⟩

/-- Under the restricted flag, resolution only succeeds for agents without
an explicit image. -/
theorem resolve_image_restricted_ok_image_none {lookup : String → Option AgentInfo}
    {agent : AgentSpec} {name : String} {a2 : AgentSpec} {c : Nat}
    (h : resolve_image true lookup agent name = (.ok a2, c)) :
    agent.image = none := by
  by_contra hne
  obtain ⟨msg, hmsg⟩ :=
    resolve_image_restricted_of_image lookup name
      (Option.ne_none_iff_isSome.mp hne)
  rw [hmsg] at h
  simp at h

/-- Under the restricted flag, a successfully resolved participant list had
no explicit images in its input. -/
theorem resolveParticipants_restricted_ok {lookup : String → Option AgentInfo}
    {ps ps2 : List AgentSpec} {c : Nat}
    (h : resolveParticipants true lookup ps = (.ok ps2, c)) :
    ∀ p ∈ ps, p.image = none := by
  induction ps generalizing ps2 c with
  | nil => intro p hp; simp at hp
  | cons p ps ih =>
    rw [resolveParticipants] at h
    rcases hr : resolve_image true lookup p (participantDisplayName p) with ⟨r, c1⟩
    rw [hr] at h
    cases r with
    | error e => simp at h
    | ok p2 =>
      rcases hrs : resolveParticipants true lookup ps with ⟨rs, c2⟩
      rw [hrs] at h
      cases rs with
      | error e => simp at h
      | ok ps3 =>
        intro q hq
        rcases List.mem_cons.mp hq with hq | hq
        · rw [hq]; exact resolve_image_restricted_ok_image_none hr
        · exact ih hrs q hq

/-- A successful run rests on a successful parse. -/
theorem main_ok_parse_ok {restricted : Bool} {lookup : String → Option AgentInfo}
    {data : ScenarioConfig} {out : Outputs}
    (h : main restricted lookup data = .ok out) :
    ∃ s c, parse_scenario restricted lookup data = (.ok s, c) := by
  unfold main at h
  rcases hp : parse_scenario restricted lookup data with ⟨r, c⟩
  rw [hp] at h
  cases r with
  | error e => simp at h
  | ok s => exact ⟨s, c, by first | exact hp | rfl⟩


/-- A successful parse under the restricted flag means no participant had an
explicit image. -/
theorem parse_ok_restricted_participants {lookup : String → Option AgentInfo}
    {data : ScenarioConfig} {s : ScenarioConfig} {c : Nat}
    (h : parse_scenario true lookup data = (.ok s, c)) :
    data.green_agent.image = none ∧ ∀ p ∈ data.participants, p.image = none := by
  unfold parse_scenario at h
  rcases hg : resolve_image true lookup data.green_agent "green_agent" with ⟨r, c1⟩
  rw [hg] at h
  cases r with
  | error e => simp at h
  | ok g2 =>
    refine ⟨resolve_image_restricted_ok_image_none hg, ?_⟩
    simp only at h
    split at h
    · rcases hps : resolveParticipants true lookup data.participants with ⟨rs, c2⟩
      rw [hps] at h
      cases rs with
      | error e => simp at h
      | ok ps2 => exact resolveParticipants_restricted_ok hps
    · simp at h

/-- Configuration for the C2 counterexample: the green agent resolves via an
external identifier whose lookup fails, while the participant `p` carries an
explicit image. -/
def c2Data : ScenarioConfig :=
  { green_agent := { agentbeats_id := some "g" },
    participants := [{ name := some "p", image := some "i" }] }

/-- Failing lookup oracle for the C2 counterexample. -/
def c2Lookup : String → Option AgentInfo := fun _ => none

/-- Claim C2 counterexample: under the restricted flag, the participant `p`
sets an explicit image, yet the run fails with a `ResolutionError` for the
green agent — not with a `ConfigError` naming `p` — because the failing
lookup of the green agent aborts the run first. -/
theorem claim_C2_counterexample :
    main true c2Lookup c2Data = .error (.resolutionError "g")
    ∧ (∃ p ∈ c2Data.participants, p.image.isSome)
    ∧ (Err.resolutionError "g").isConfigError = false := by
  refine ⟨rfl, ⟨{ name := some "p", image := some "i" }, ?_, rfl⟩, rfl⟩
  simp [c2Data]

/-- Claim C2 (amended): with the restricted flag set and any entity carrying
an explicit image, the run fails — exiting non-zero with none of the three
output files written — and the resolution step of that entity itself fails
with a `ConfigError` naming it and making no lookup call; when the entity is
the green agent the whole run reports that `ConfigError`, while for a
participant an earlier failure may preempt it. -/
theorem claim_C2_amended (lookup : String → Option AgentInfo)
    (data : ScenarioConfig) :
    (data.green_agent.image.isSome →
      ∃ msg, main true lookup data = .error (.configError msg "green_agent"))
    ∧ ((∃ p ∈ data.participants, p.image.isSome) →
      ∃ e, main true lookup data = .error e)
    ∧ (∀ p ∈ data.participants, p.image.isSome →
      ∃ msg, resolve_image true lookup p (participantDisplayName p)
        = (.error (.configError msg (participantDisplayName p)), 0)) := by
  refine ⟨?_, ?_, ?_⟩
  · intro hg
    obtain ⟨msg, hmsg⟩ :=
      resolve_image_restricted_of_image lookup "green_agent" hg
    refine ⟨msg, ?_⟩
    unfold main parse_scenario
    rw [hmsg]
  · intro ⟨p, hp, hpi⟩
    cases hm : main true lookup data with
    | error e => exact ⟨e, rfl⟩
    | ok out =>
      obtain ⟨s, c, hps⟩ := main_ok_parse_ok hm
      have := (parse_ok_restricted_participants hps).2 p hp
      rw [this] at hpi
      simp at hpi
  · intro p _ hpi
    exact resolve_image_restricted_of_image lookup (participantDisplayName p) hpi

/-- Concrete instantiation of the amended claim C2 on the counterexample
configuration: the run fails, and the resolution of the image-bearing
participant fails with a `ConfigError` naming it. -/
theorem claim_C2_witness :
    (∃ e, main true c2Lookup c2Data = .error e)
    ∧ (∃ msg, resolve_image true c2Lookup { name := some "p", image := some "i" }
        (participantDisplayName { name := some "p", image := some "i" })
        = (.error (.configError msg
            (participantDisplayName { name := some "p", image := some "i" })), 0)) := by
  refine ⟨(claim_C2_amended c2Lookup c2Data).2.1
      ⟨{ name := some "p", image := some "i" }, ?_, rfl⟩,
    (claim_C2_amended c2Lookup c2Data).2.2
      { name := some "p", image := some "i" } ?_ rfl⟩
  · simp [c2Data]
  · simp [c2Data]

/-- Configuration for the C3 counterexample: duplicate participant names
AND a green agent with no image source. -/
def c3Data : ScenarioConfig :=
  { participants := [{ name := some "a", image := some "x" },
                     { name := some "a", image := some "y" }] }

/-- Claim C3 counterexample: `c3Data` has the duplicated participant name
`a`, yet the run fails with the missing-image-source `ConfigError` for the
green agent — reporting no duplicate-name set at all — because the green
agent is resolved before the duplicate check runs. -/
theorem claim_C3_counterexample :
    main false (fun _ => none) c3Data
      = .error (.configError missingSourceMsg "green_agent")
    ∧ 1 < (c3Data.participants.map (fun p => p.name)).count (some "a") :=
  ⟨rfl, by decide⟩

/-- Claim C3 (amended): provided the green agent itself resolves
successfully, every configuration whose participants sequence contains
duplicate names fails with the duplicate-names `ConfigError` whose reported
set of names is exactly the set of names occurring at least twice
(order-independent membership equality), and no output file is written
(`main` aborts with the error before rendering). -/
theorem claim_C3_amended (restricted : Bool) (lookup : String → Option AgentInfo)
    (data : ScenarioConfig) (g : AgentSpec) (c : Nat)
    (hg : resolve_image restricted lookup data.green_agent "green_agent" = (.ok g, c))
    (hdup : ∃ n, 1 < (data.participants.map (fun p => p.name)).count n) :
    ∃ ds, main restricted lookup data = .error (.duplicateNamesError ds)
      ∧ (Err.duplicateNamesError ds).isConfigError = true
      ∧ ∀ n, n ∈ ds ↔ 1 < (data.participants.map (fun p => p.name)).count n := by
  refine ⟨duplicateNames (data.participants.map (fun p => p.name)), ?_, rfl, ?_⟩
  · have hne : (duplicateNames (data.participants.map (fun p => p.name))).isEmpty
        = false := by
      obtain ⟨n, hn⟩ := hdup
      have hmem : n ∈ data.participants.map (fun p => p.name) :=
        List.count_pos_iff.mp (lt_of_le_of_lt (Nat.zero_le 1) hn)
      have hd : n ∈ duplicateNames (data.participants.map (fun p => p.name)) :=
        List.mem_filter.mpr ⟨List.mem_dedup.mpr hmem, by simpa using hn⟩
      have hd2 := List.ne_nil_of_mem hd
      simpa [List.isEmpty_iff] using hd2
    unfold main parse_scenario
    rw [hg]
    simp [hne]
  · intro n
    constructor
    · intro hmem
      have hp := (List.mem_filter.mp hmem).2
      simpa using hp
    · intro hcount
      exact List.mem_filter.mpr
        ⟨List.mem_dedup.mpr (List.count_pos_iff.mp (lt_of_le_of_lt (Nat.zero_le 1) hcount)),
         by simpa using hcount⟩

/-- Configuration for the C3 witness: a valid green agent and a duplicated
participant name. -/
def c3wData : ScenarioConfig :=
  { green_agent := { image := some "g" },
    participants := [{ name := some "a", image := some "x" },
                     { name := some "a", image := some "y" }] }

/-- Concrete instantiation of the amended claim C3. -/
theorem claim_C3_witness :
    ∃ ds, main false (fun _ => none) c3wData = .error (.duplicateNamesError ds)
      ∧ (Err.duplicateNamesError ds).isConfigError = true
      ∧ ∀ n, n ∈ ds ↔ 1 < (c3wData.participants.map (fun p => p.name)).count n :=
  claim_C3_amended false (fun _ => none) c3wData c3wData.green_agent 0 rfl
    ⟨some "a", by decide⟩

/-- Claim C5: the transcoded scenario opens with the green-agent callback
endpoint and contains one block per participant in sequence order; each
block carries the participant name as role and the derived endpoint; the
external-identifier line is present exactly when the participant carries a
`webhook_id` or an input `agentbeats_id`, preferring the `webhook_id`; and a
participant that was resolved from an explicit image (no `agentbeats_id`
and no prior `webhook_id`) carries no identifier line. -/
theorem claim_C5_transcoded_scenario (scenario : ScenarioConfig) :
    generate_a2a_scenario scenario
      = "[green_agent]\nendpoint = \"http://green-agent:9009\"\n\n"
        ++ String.intercalate "\n" (scenario.participants.map participantBlock)
        ++ "\n" ++ tomlDumpsConfig scenario.config
    ∧ (∀ p : AgentSpec, participantBlock p
        = String.intercalate "\n"
            (["[[participants]]",
              "role = \"" ++ p.name.getD "" ++ "\"",
              "endpoint = \"http://" ++ p.name.getD "" ++ ":" ++ "9009" ++ "\""]
              ++ participantIdLines p) ++ "\n")
    ∧ (∀ p : AgentSpec,
        participantIdLines p = [] ↔ p.webhook_id = none ∧ p.agentbeats_id = none)
    ∧ (∀ (p : AgentSpec) (w : String), p.webhook_id = some w →
        participantIdLines p = ["agentbeats_id = \"" ++ w ++ "\""])
    ∧ (∀ (p : AgentSpec) (a : String), p.webhook_id = none →
        p.agentbeats_id = some a →
        participantIdLines p = ["agentbeats_id = \"" ++ a ++ "\""])
    ∧ (∀ (restricted : Bool) (lookup : String → Option AgentInfo)
        (agent : AgentSpec) (name : String) (a2 : AgentSpec) (c : Nat),
        agent.agentbeats_id = none → agent.webhook_id = none →
        resolve_image restricted lookup agent name = (.ok a2, c) →
        participantIdLines a2 = []) := by
  refine ⟨rfl, fun p => rfl, ?_, ?_, ?_, ?_⟩
  · intro p
    rcases hw : p.webhook_id with _ | w <;> rcases ha : p.agentbeats_id with _ | a <;>
      simp [participantIdLines, hw, ha]
  · intro p w hw
    simp [participantIdLines, hw]
  · intro p a hw ha
    simp [participantIdLines, hw, ha]
  · intro restricted lookup agent name a2 c hid hw h
    rcases himg : agent.image with _ | i
    · simp [resolve_image, himg, hid] at h
    · cases restricted <;> simp [resolve_image, himg, hid] at h
      rcases h with ⟨h1, -⟩
      subst h1
      simp [participantIdLines, hw, hid]

/-- Concrete instantiation of claim C5: an explicit-image participant gets
no identifier line after resolution, and a participant carrying the
captured webhook id `9` renders `agentbeats_id = "9"`. -/
theorem claim_C5_witness :
    participantIdLines { name := some "p1", image := some "img:p1" } = []
    ∧ participantIdLines
        { name := some "p2", agentbeats_id := some "abc", webhook_id := some "9" }
      = ["agentbeats_id = \"9\""] :=
  ⟨(claim_C5_transcoded_scenario {}).2.2.2.2.2 false (fun _ => none)
      { name := some "p1", image := some "img:p1" } "participant p1"
      { name := some "p1", image := some "img:p1" } 0 rfl rfl rfl,
   (claim_C5_transcoded_scenario {}).2.2.2.1
      { name := some "p2", agentbeats_id := some "abc", webhook_id := some "9" }
      "9" rfl⟩

/-- Association-list lookup is stable under permutation when the keys are
pairwise distinct (permuting the insertion order of a dict does not change
the mapping it represents). -/
theorem lookup_eq_of_perm :
    ∀ {l₁ l₂ : List (String × String)}, l₁.Perm l₂ →
      (l₁.map Prod.fst).Nodup → ∀ a : String, l₁.lookup a = l₂.lookup a := by
  intro l₁ l₂ hperm
  induction hperm with
  | nil => intro _ a; rfl
  | cons x p ih =>
    intro hnd a
    rcases x with ⟨k, v⟩
    simp only [List.lookup]
    cases hak : a == k
    · simp only
      exact ih (by simpa using (List.nodup_cons.mp (by simpa using hnd)).2) a
    · simp only
  | swap x y t =>
    intro hnd a
    rcases x with ⟨k1, v1⟩
    rcases y with ⟨k2, v2⟩
    have hk : k2 ≠ k1 := by
      simp [List.nodup_cons] at hnd
      exact fun he => hnd.1.1 he
    simp only [List.lookup]
    cases hak2 : a == k2 <;> cases hak1 : a == k1 <;> simp only
    exfalso
    exact hk ((eq_of_beq hak2).symm.trans (eq_of_beq hak1))
  | trans p₁ p₂ ih₁ ih₂ =>
    intro hnd a
    exact (ih₁ hnd a).trans (ih₂ (((p₁.map Prod.fst).nodup_iff).mp hnd) a)

/-- Rendered environment lines are permuted when the env table insertion
order is permuted (distinct keys assumed, as for any parsed dict): the
baseline-merged head entry is unchanged and the remaining entries permute. -/
theorem envLines_perm {env₁ env₂ : List (String × String)}
    (hnd : (env₁.map Prod.fst).Nodup) (hperm : env₁.Perm env₂) :
    (envLines env₁).Perm (envLines env₂) := by
  unfold envLines dictMerge
  apply List.Perm.map
  have h1 : DEFAULT_ENV_VARS.map (fun kv => (kv.1, ((env₁.lookup kv.1).getD kv.2)))
      = DEFAULT_ENV_VARS.map (fun kv => (kv.1, ((env₂.lookup kv.1).getD kv.2))) := by
    apply List.map_congr_left
    intro kv _
    rw [lookup_eq_of_perm hperm hnd kv.1]
  rw [h1]
  exact List.Perm.append_left _ (hperm.filter _)

/-- Claim C7: the rendered environment block is a newline-joined list of
`      - KEY=VALUE` lines; permuting the insertion order of an env table
with distinct keys permutes those rendered lines (the content of the block
— its multiset of lines — is unchanged, only their stable insertion order
moves); and the i-th rendered participant service block is exactly the
rendering of the i-th participant, so permuting the participants sequence
permutes the service blocks in lock-step. -/
theorem claim_C7_env_content_and_participant_lockstep :
    (∀ env : List (String × String),
      format_env_vars env = "\n" ++ String.intercalate "\n" (envLines env))
    ∧ (∀ env₁ env₂ : List (String × String), (env₁.map Prod.fst).Nodup →
      env₁.Perm env₂ → (envLines env₁).Perm (envLines env₂))
    ∧ (∀ (ps : List AgentSpec) (i : Nat) (h : i < ps.length),
      (ps.map participantService).get ⟨i, by simpa using h⟩
        = participantService (ps.get ⟨i, h⟩)) := by
  refine ⟨fun env => rfl, fun e1 e2 hnd hp => envLines_perm hnd hp, ?_⟩
  intro ps i h
  exact List.get_map participantService

/-- Concrete instantiation of claim C7: swapping two env entries permutes
the rendered lines, and the second rendered service block is the rendering
of the second participant. -/
theorem claim_C7_witness :
    (envLines [("A", "1"), ("B", "2")]).Perm (envLines [("B", "2"), ("A", "1")])
    ∧ ([{ name := some "p1" }, { name := some "p2" }].map participantService).get
        ⟨1, by decide⟩
      = participantService ({ name := some "p2" } : AgentSpec) :=
  ⟨claim_C7_env_content_and_participant_lockstep.2.1
      [("A", "1"), ("B", "2")] [("B", "2"), ("A", "1")] (by decide) (by decide),
   claim_C7_env_content_and_participant_lockstep.2.2
      [{ name := some "p1" }, { name := some "p2" }] 1 (by decide)⟩

/-- Claim C9: dependency wiring of the generated manifest.  The compose
document is the template applied with the literal empty dependency list
`[]` in the green-agent depends slot (the green agent depends on nothing);
every participant service block contains the healthy-state dependency on
the green-agent service; and the collection-client depends block consists
of exactly one healthy-state entry pair per service in
`green-agent :: participant names` — the green agent and every
participant. -/
theorem claim_C9_dependency_graph (scenario : ScenarioConfig) :
    generate_docker_compose scenario
      = COMPOSE_TEMPLATE (scenario.green_agent.image.getD "") (toString DEFAULT_PORT)
          (format_env_vars scenario.green_agent.env) " []"
          (String.intercalate "\n" (scenario.participants.map participantService))
          (format_depends_on (allServiceNames scenario)) PATCH_B64
    ∧ (∀ gi gp ge gd pserv cd pb : String, ∃ a b : String,
        COMPOSE_TEMPLATE gi gp ge gd pserv cd pb
          = a ++ ("depends_on:" ++ gd) ++ b
        ∧ ∃ a2 b2 : String, COMPOSE_TEMPLATE gi gp ge gd pserv cd pb
          = a2 ++ ("depends_on:" ++ cd) ++ b2)
    ∧ (∀ p : AgentSpec, ∃ a b : String, participantService p
        = a ++ "depends_on:\n      green-agent:\n        condition: service_healthy\n"
          ++ b)
    ∧ format_depends_on (allServiceNames scenario)
        = "\n" ++ String.intercalate "\n"
            ((allServiceNames scenario).flatMap
              (fun s => ["      " ++ s ++ ":", "        condition: service_healthy"]))
    ∧ allServiceNames scenario
        = "green-agent" :: scenario.participants.map (fun p => p.name.getD "")
    ∧ (∀ s ∈ allServiceNames scenario,
        ("      " ++ s ++ ":") ∈ dependsLines (allServiceNames scenario)
        ∧ "        condition: service_healthy"
            ∈ dependsLines (allServiceNames scenario)) := by
  refine ⟨rfl, ?_, ?_, rfl, rfl, ?_⟩
  · intro gi gp ge gd pserv cd pb
    refine ⟨"# Auto-generated from scenario.toml\n\nservices:\n  green-agent:\n    image: "
        ++ gi
        ++ "\n    platform: linux/amd64\n    container_name: green-agent\n    \n    # FIX INDESTRUCTIBLE: Decodifica el parche y lo ejecuta.\n    # No hay scripts multilinea en el YAML, por lo que no puede haber error de sintaxis.\n    entrypoint: \n      - /bin/sh\n      - -c\n      - \"echo "
        ++ pb
        ++ " | base64 -d > /tmp/runner.py && python /tmp/runner.py --host 0.0.0.0 --port "
        ++ gp
        ++ " --card-url http://green-agent:"
        ++ gp
        ++ "\"\n\n    environment:"
        ++ ge
        ++ "\n    healthcheck:\n      test: [\"CMD\", \"curl\", \"-f\", \"http://localhost:"
        ++ gp
        ++ "/status\"]\n      interval: 5s\n      timeout: 3s\n      retries: 10\n      start_period: 30s\n    ",
      "\n    networks:\n      - agent-network\n\n"
        ++ pserv
        ++ "\n  agentbeats-client:\n    image: ghcr.io/agentbeats/agentbeats-client:v1.0.0\n    platform: linux/amd64\n    container_name: agentbeats-client\n    volumes:\n      - ./a2a-scenario.toml:/app/scenario.toml\n      - ./output:/app/output\n    command: [\"scenario.toml\", \"output/results.json\"]\n    "
        ++ "depends_on:"
        ++ cd
        ++ "\n    networks:\n      - agent-network\n\nnetworks:\n  agent-network:\n    driver: bridge\n", ?_, ?_⟩
    · simp only [COMPOSE_TEMPLATE, String.append_assoc]
    · refine ⟨"# Auto-generated from scenario.toml\n\nservices:\n  green-agent:\n    image: "
          ++ gi
          ++ "\n    platform: linux/amd64\n    container_name: green-agent\n    \n    # FIX INDESTRUCTIBLE: Decodifica el parche y lo ejecuta.\n    # No hay scripts multilinea en el YAML, por lo que no puede haber error de sintaxis.\n    entrypoint: \n      - /bin/sh\n      - -c\n      - \"echo "
          ++ pb
          ++ " | base64 -d > /tmp/runner.py && python /tmp/runner.py --host 0.0.0.0 --port "
          ++ gp
          ++ " --card-url http://green-agent:"
          ++ gp
          ++ "\"\n\n    environment:"
          ++ ge
          ++ "\n    healthcheck:\n      test: [\"CMD\", \"curl\", \"-f\", \"http://localhost:"
          ++ gp
          ++ "/status\"]\n      interval: 5s\n      timeout: 3s\n      retries: 10\n      start_period: 30s\n    "
          ++ "depends_on:"
          ++ gd
          ++ "\n    networks:\n      - agent-network\n\n"
          ++ pserv
          ++ "\n  agentbeats-client:\n    image: ghcr.io/agentbeats/agentbeats-client:v1.0.0\n    platform: linux/amd64\n    container_name: agentbeats-client\n    volumes:\n      - ./a2a-scenario.toml:/app/scenario.toml\n      - ./output:/app/output\n    command: [\"scenario.toml\", \"output/results.json\"]\n    ",
        "\n    networks:\n      - agent-network\n\nnetworks:\n  agent-network:\n    driver: bridge\n", ?_⟩
      simp only [COMPOSE_TEMPLATE, String.append_assoc]
  · intro p
    exact ⟨participantServicePre p, participantServicePost, rfl⟩
  · intro s hs
    exact ⟨List.mem_flatMap.mpr ⟨s, hs, by simp⟩,
      List.mem_flatMap.mpr ⟨s, hs, by simp⟩⟩

/-- Concrete instantiation of claim C9 on a one-participant scenario: the
participant block carries the green-agent healthy dependency and the client
depends lines contain entries for both services. -/
theorem claim_C9_witness :
    (∃ a b : String, participantService { name := some "p1", image := some "i" }
      = a ++ "depends_on:\n      green-agent:\n        condition: service_healthy\n"
        ++ b)
    ∧ ("      p1:"
        ∈ dependsLines (allServiceNames
            { participants := [{ name := some "p1", image := some "i" }] })) := by
  refine ⟨(claim_C9_dependency_graph {}).2.2.1 { name := some "p1", image := some "i" }, ?_⟩
  have hm := (claim_C9_dependency_graph
      { participants := [{ name := some "p1", image := some "i" }] }).2.2.2.2.2
      "p1" (by decide)
  exact hm.1

/-- Bridge between the executable comparison `charListLe` and the
lexicographic strict order on character lists: `charListLe as bs` holds
exactly when `bs` is not lexicographically smaller than `as`. -/
theorem charListLe_iff :
    ∀ as bs : List Char, charListLe as bs = true ↔ ¬ List.Lex (· < ·) bs as := by
  intro as
  induction as with
  | nil =>
    intro bs
    simp only [charListLe]
    simpa using List.Lex.not_nil_right (· < ·) bs
  | cons a as ih =>
    intro bs
    cases bs with
    | nil =>
      simp only [charListLe]
      simpa using List.Lex.nil
    | cons b bs =>
      by_cases h1 : a < b
      · have hnb : ¬ b < a := asymm h1
        simp only [charListLe]
        rw [if_pos h1]
        simp only [true_iff]
        intro hlex
        cases hlex with
        | rel hr => exact hnb hr
        | cons ht => exact lt_irrefl a h1
      · by_cases h2 : b < a
        · simp only [charListLe]
          rw [if_neg h1, if_pos h2]
          simp only [Bool.false_eq_true, false_iff, not_not]
          exact List.Lex.rel h2
        · have hab : a = b := le_antisymm (not_lt.mp h2) (not_lt.mp h1)
          subst hab
          simp only [charListLe]
          rw [if_neg h1, if_neg h2]
          rw [ih bs]
          constructor
          · intro h hlex
            cases hlex with
            | rel hr => exact lt_irrefl a hr
            | cons ht => exact h ht
          · intro h hlex
            exact h (List.Lex.cons hlex)

/-- The executable string comparison agrees with the linear order on
strings (lexicographic by code point). -/
theorem strLeB_iff_le (a b : String) : strLeB a b = true ↔ a ≤ b := by
  have h1 : (b < a) ↔ List.Lex (· < ·) b.data a.data := String.lt_iff_toList_lt
  constructor
  · intro h
    exact not_lt.mp (fun hlt => (charListLe_iff a.data b.data).mp h (h1.mp hlt))
  · intro h
    exact (charListLe_iff a.data b.data).mpr
      (fun hlex => absurd (h1.mpr hlex) (not_lt.mpr h))

/-- The collected secret set is empty exactly when no scanned env value
contains a placeholder. -/
theorem collectedSecrets_eq_nil_iff (scenario : ScenarioConfig) :
    collectedSecrets scenario = []
      ↔ ∀ v ∈ envValues scenario, findPlaceholdersStr v = [] := by
  unfold collectedSecrets
  rw [List.dedup_eq_nil, List.flatMap_eq_nil_iff]

/-- With a nonempty secret set the rendered template is a nonempty string
(it ends in a newline). -/
theorem generate_env_file_ne_empty (scenario : ScenarioConfig)
    (hs : (collectedSecrets scenario).isEmpty = false) :
    generate_env_file scenario ≠ "" := by
  unfold generate_env_file
  simp only [hs, Bool.false_eq_true, if_false]
  intro hE
  have hlen := congrArg String.length hE
  rw [String.length_append] at hlen
  have h1 : ("\n" : String).length = 1 := rfl
  have h2 : ("" : String).length = 0 := rfl
  omega

/-- Claim C6: the secret extractor emits the empty template exactly when no
`${NAME}` placeholder occurs in any env value of the green agent or any
participant (and `main` then writes no env file); otherwise the template is
one `NAME=` line per distinct collected name — no duplicates, in ascending
lexicographic order, membership ranging exactly over the names occurring in
some scanned value — joined by newlines. -/
theorem claim_C6_secret_extraction (scenario : ScenarioConfig) :
    (generate_env_file scenario = ""
      ↔ ∀ v ∈ envValues scenario, findPlaceholdersStr v = [])
    ∧ (generate_env_file scenario ≠ "" →
      ∃ t : List String, t.Nodup ∧ t.Sorted (fun a b => a ≤ b)
        ∧ (∀ n, n ∈ t ↔ ∃ v ∈ envValues scenario, n ∈ findPlaceholdersStr v)
        ∧ generate_env_file scenario
            = String.intercalate "\n" (t.map (fun n => n ++ "=")) ++ "\n") := by
  constructor
  · constructor
    · intro h
      cases hs : (collectedSecrets scenario).isEmpty with
      | false => exact absurd h (generate_env_file_ne_empty _ hs)
      | true =>
        exact (collectedSecrets_eq_nil_iff _).mp (List.isEmpty_iff.mp hs)
    · intro h
      have h0 : collectedSecrets scenario = [] := (collectedSecrets_eq_nil_iff _).mpr h
      simp [generate_env_file, h0]
  · intro hne
    have hs : (collectedSecrets scenario).isEmpty = false := by
      cases hs : (collectedSecrets scenario).isEmpty with
      | false => rfl
      | true =>
        exact absurd (by simp [generate_env_file, List.isEmpty_iff.mp hs]) hne
    refine ⟨List.insertionSort (fun a b => strLeB a b) (collectedSecrets scenario),
      ?_, ?_, ?_, ?_⟩
    · exact ((List.perm_insertionSort _ _).nodup_iff).mpr (List.nodup_dedup _)
    · haveI htr : IsTrans String (fun a b => strLeB a b = true) :=
        ⟨fun a b c hab hbc => (strLeB_iff_le a c).mpr
          (le_trans ((strLeB_iff_le a b).mp hab) ((strLeB_iff_le b c).mp hbc))⟩
      haveI htot : IsTotal String (fun a b => strLeB a b = true) :=
        ⟨fun a b => by
          rcases le_total a b with h | h
          · exact Or.inl ((strLeB_iff_le a b).mpr h)
          · exact Or.inr ((strLeB_iff_le b a).mpr h)⟩
      have hsorted := List.sorted_insertionSort (fun a b => strLeB a b = true)
        (collectedSecrets scenario)
      exact List.Pairwise.imp (fun h => (strLeB_iff_le _ _).mp h) hsorted
    · intro n
      rw [List.Perm.mem_iff (List.perm_insertionSort _ _)]
      unfold collectedSecrets
      rw [List.mem_dedup, List.mem_flatMap]
    · unfold generate_env_file
      simp only [hs, Bool.false_eq_true, if_false]

/-- Env table for the C6 witness, the round-trip example of the spec. -/
def c6Data : ScenarioConfig :=
  { green_agent := { env := [("A", "$\x7bFOO\x7d"), ("B", "plain"),
                             ("C", "$\x7bFOO\x7d-$\x7bBAR\x7d")] } }

/-- Concrete instantiation of claim C6: the spec example produces exactly
`BAR=` then `FOO=`. -/
theorem claim_C6_witness :
    generate_env_file c6Data = "BAR=\nFOO=\n"
    ∧ ∃ t : List String, t.Nodup ∧ t.Sorted (fun a b => a ≤ b)
        ∧ (∀ n, n ∈ t ↔ ∃ v ∈ envValues c6Data, n ∈ findPlaceholdersStr v)
        ∧ generate_env_file c6Data
            = String.intercalate "\n" (t.map (fun n => n ++ "=")) ++ "\n" :=
  ⟨by decide, (claim_C6_secret_extraction c6Data).2 (by decide)⟩
